import Mathlib

/-!
Verification of the readiness-heuristic / PDF-file-lifecycle core of the
`pdf-api` repository, as a shallow embedding of `src/server.js` (the first
revision stored in that file) together with its refactored sibling
`src/src/app.js`.

Filenames are modelled as `List Char` (a JavaScript string is a sequence of
code units), the storage directory as a list of stored files carrying the
name, the filesystem modification time in milliseconds and the byte content,
and time instants as natural numbers of milliseconds since the epoch.
Subtraction of timestamps is performed over `Int`, exactly as JavaScript
number subtraction behaves on these magnitudes.
-/

namespace PdfApi

/-! ### Filename validation (src/server.js lines 621 and 750)

The serving routes reject a filename unless it survives

    !filename || filename.includes('..') || filename.includes('/') ||
    filename.includes('\\') || !/^[a-zA-Z0-9_-]+\.pdf$/.test(filename)

`containsSeq pat l` is `l.includes(pat)`: some contiguous run of `l` equals
`pat`. -/

/-- `startsWithSeq pat l` is true iff `pat` is an initial segment of `l`. -/
def startsWithSeq : List Char → List Char → Bool
  | [], _ => true
  | _ :: _, [] => false
  | p :: ps, c :: cs => decide (p = c) && startsWithSeq ps cs

/-- `containsSeq pat l` is JavaScript `l.includes(pat)`: `pat` occurs as a
contiguous subsequence of `l`. -/
def containsSeq (pat : List Char) : List Char → Bool
  | [] => startsWithSeq pat []
  | c :: cs => startsWithSeq pat (c :: cs) || containsSeq pat cs

/-- The character class `[a-zA-Z0-9_-]` of the validation regex. -/
def allowedChar (c : Char) : Bool :=
  (('a' ≤ c && c ≤ 'z') || ('A' ≤ c && c ≤ 'Z') || ('0' ≤ c && c ≤ '9')
    || decide (c = '_') || decide (c = '-'))

/-- The four characters of the mandatory `.pdf` ending. -/
def pdfSuffix : List Char := ['.', 'p', 'd', 'f']

/-- After the first stem character, the regex `^[a-zA-Z0-9_-]+\.pdf$` consumes
further stem characters and then requires the remainder to be exactly `.pdf`.
Since `.` is not in the character class, greedy consumption is faithful. -/
def stemThenPdf : List Char → Bool
  | [] => false
  | c :: cs => if allowedChar c then stemThenPdf cs else decide (c :: cs = pdfSuffix)

/-- `/^[a-zA-Z0-9_-]+\.pdf$/.test(name)`: at least one allowed character,
then the literal `.pdf`, then the end of the string. -/
def matchesPdfRegex : List Char → Bool
  | [] => false
  | c :: cs => allowedChar c && stemThenPdf (c :: cs)

/-- The rejection test of `GET /download/:filename` and `GET /view/:filename`
(src/server.js lines 621 and 750), verbatim. -/
def invalidFilename (name : List Char) : Bool :=
  name.isEmpty || containsSeq ['.', '.'] name || containsSeq ['/'] name
    || containsSeq ['\\'] name || !matchesPdfRegex name

/-! ### The storage directory -/

/-- One file of the storage directory `generated_pdfs`: its name, its
filesystem modification time (`stats.mtime`, milliseconds) and its bytes. -/
structure StoredFile where
  name : List Char
  mtime : Nat
  content : List Nat
  deriving DecidableEq, Repr

/-- Directory lookup by exact name, the snapshot counterpart of resolving
`path.join(OUTPUT_DIR, filename)` on disk. -/
def findFile (dir : List StoredFile) (name : List Char) : Option StoredFile :=
  dir.find? fun f => decide (f.name = name)

/-! ### The serving routes (src/server.js lines 614-698 and 746-798) -/

/-- A filesystem operation performed by a serving route, recorded so that the
point at which validation happens relative to filesystem access is visible. -/
inductive FsOp where
  | existsCheck (name : List Char)
  | statCall (name : List Char)
  | readCall (name : List Char)
  deriving DecidableEq, Repr

/-- The observable outcome of a serving route: 400 invalid filename, 404
missing file, or 200 with the file's bytes. -/
inductive ServeResponse where
  | invalidName
  | notFound
  | fileBytes (bytes : List Nat)
  deriving DecidableEq, Repr

/-- `GET /download/:filename` (src/server.js lines 614-698): validate the
name; `fs.existsSync` decides 404; otherwise `fs.statSync` and
`fs.createReadStream` serve the bytes.  No expiry computation appears
anywhere on this route. -/
def downloadRoute (dir : List StoredFile) (name : List Char) :
    ServeResponse × List FsOp :=
  if invalidFilename name then (.invalidName, [])
  else
    match findFile dir name with
    | none => (.notFound, [.existsCheck name])
    | some f => (.fileBytes f.content, [.existsCheck name, .statCall name, .readCall name])

/-- `GET /view/:filename` (src/server.js lines 746-798): identical validation
and file handling, inline `Content-Disposition` instead of attachment. -/
def viewRoute (dir : List StoredFile) (name : List Char) :
    ServeResponse × List FsOp :=
  if invalidFilename name then (.invalidName, [])
  else
    match findFile dir name with
    | none => (.notFound, [.existsCheck name])
    | some f => (.fileBytes f.content, [.existsCheck name, .statCall name, .readCall name])

/-- The amended read contract, stated from the spec's words after removing the
expiry clause: a validated name is served iff a file of that exact name exists
in the directory snapshot, with no dependence on the current time. -/
def specServe (dir : List StoredFile) (name : List Char) : ServeResponse :=
  match findFile dir name with
  | none => .notFound
  | some f => .fileBytes f.content

/-! ### The cleanup sweep (src/server.js lines 43-82)

`cleanupOldFiles` reads the directory (an error there is logged and ends the
run with nothing deleted), then for each listed file stats it (a per-file
error is logged and skips only that file) and unlinks it when
`Date.now() - stats.mtime.getTime() > FILE_EXPIRATION_MS` (an unlink error is
logged and leaves only that file in place).  Fault injection for the three
I/O calls is explicit. -/

/-- Which I/O calls of one sweep run fail: the initial `fs.readdir`, and the
per-file `fs.stat` / `fs.unlink` calls, by filename. -/
structure SweepFaults where
  readdirFails : Bool
  statFails : List Char → Bool
  unlinkFails : List Char → Bool

/-- The expiry test of the sweep: `Date.now() - stats.mtime.getTime() >
FILE_EXPIRATION_MS`, with JavaScript number subtraction over `Int`. -/
def expiredNow (now ttl : Nat) (f : StoredFile) : Bool :=
  decide ((ttl : Int) < (now : Int) - (f.mtime : Int))

/-- Whether one run of the sweep unlinks file `f`: its stat succeeded, its age
exceeds the TTL, and its unlink succeeded. -/
def sweepDeletes (e : SweepFaults) (now ttl : Nat) (f : StoredFile) : Bool :=
  !e.statFails f.name && expiredNow now ttl f && !e.unlinkFails f.name

/-- One run of `cleanupOldFiles` over a directory snapshot: the directory
state after the run. -/
def cleanupOldFiles (e : SweepFaults) (now ttl : Nat) (dir : List StoredFile) :
    List StoredFile :=
  if e.readdirFails then dir
  else dir.filter fun f => !sweepDeletes e now ttl f

/-- A fault-free sweep run: every I/O call succeeds. -/
def noFaults : SweepFaults :=
  { readdirFails := false, statFails := fun _ => false, unlinkFails := fun _ => false }

/-! ### The file listing route (src/server.js lines 700-743)

`GET /files` maps every directory entry to a descriptor whose `status` is
`'expired'` when `expiresAt - Date.now() <= 0`, then builds the response
object.  That object also contains `expirationHours: FILE_EXPIRATION_HOURS`,
and `FILE_EXPIRATION_HOURS` is bound nowhere in src/server.js (the
configuration section defines only `FILE_EXPIRATION_MS`), so evaluating the
object literal throws a `ReferenceError` which the surrounding `try` turns
into the 500 `Failed to list files` response. -/

/-- Derived per-file status in the listing. -/
inductive FileStatus where
  | active
  | expired
  deriving DecidableEq, Repr

/-- One entry of the `files` array of `GET /files`. -/
structure FileInfo where
  filename : List Char
  createdAt : Nat
  expiresAt : Nat
  status : FileStatus
  deriving DecidableEq, Repr

/-- The per-file descriptor computation of `GET /files`: `createdAt` is the
mtime, `expiresAt = createdAt + FILE_EXPIRATION_MS`, and the file is
`expired` exactly when `timeRemaining = expiresAt - Date.now()` is `<= 0`. -/
def fileInfoOf (ttl now : Nat) (f : StoredFile) : FileInfo :=
  { filename := f.name
    createdAt := f.mtime
    expiresAt := f.mtime + ttl
    status := if ((f.mtime : Int) + ttl - now ≤ 0) then .expired else .active }

/-- The value of the identifier `FILE_EXPIRATION_HOURS` read at line 731 of
src/server.js: no binding of that name exists in the file, so the read has no
value and throws `ReferenceError` at runtime. -/
def FILE_EXPIRATION_HOURS? : Option Nat := none

/-- The observable outcome of `GET /files`: the 200 listing with its counts
and the `expirationHours` field, or the 500 failure response. -/
inductive FilesResponse where
  | listing (files : List FileInfo) (totalFiles activeFiles expiredFiles : Nat)
      (expirationHours : Nat)
  | failure
  deriving DecidableEq, Repr

/-- `GET /files` (src/server.js lines 700-743), after API-key auth: list the
directory (a listing error gives the 500 response), build the descriptors,
then build the response object - which reads `FILE_EXPIRATION_HOURS`. -/
def filesRoute (listingResult : Option (List StoredFile)) (ttl now : Nat) :
    FilesResponse :=
  match listingResult with
  | none => .failure
  | some files =>
    let infos := files.map (fileInfoOf ttl now)
    match FILE_EXPIRATION_HOURS? with
    | none => .failure
    | some h =>
      .listing infos infos.length
        (infos.filter fun i => decide (i.status = .active)).length
        (infos.filter fun i => decide (i.status = .expired)).length h

/-! ### The render request handler (src/server.js lines 342-612)

`POST /generate-pdf` races `pdfGenerationTask()` against a 60-second
`timeoutPromise`.  The task assigns the shared `browser` variable when
`puppeteer.launch` (itself allowed up to the 120-second `PUPPETEER_TIMEOUT`)
resolves; the `finally` block closes `browser` when it is non-null.  When the
outer timeout rejects the race while the launch is still pending, the catch
and finally run with `browser === null`, the 408 response is sent, and the
browser that the still-running task obtains afterwards is never closed. -/

/-- The environment of one handler execution: where the outer timeout fires
relative to the task, and which awaited steps succeed.  `waitForContentLoad`
appears in no field because it never throws (see below). -/
structure RenderEnv where
  /-- the outer `timeoutPromise` rejects while `puppeteer.launch` is pending -/
  timeoutDuringLaunch : Bool
  /-- `puppeteer.launch` itself eventually succeeds -/
  launchOk : Bool
  /-- the outer timeout rejects after launch resolved, before the task ends -/
  timeoutBeforeDone : Bool
  newPageOk : Bool
  gotoOk : Bool
  exportOk : Bool
  deriving DecidableEq, Repr

/-- What one `POST /generate-pdf` execution leaves behind: whether a browser
process came up, whether the handler closed it, and the HTTP status sent. -/
structure RenderOutcome where
  browserLaunched : Bool
  browserClosed : Bool
  status : Nat
  deriving DecidableEq, Repr

/-- `POST /generate-pdf` (src/server.js lines 342-612) for a request that
passed the URL checks, summarised to the resource-lifecycle observables. -/
def generatePdfHandler (env : RenderEnv) : RenderOutcome :=
  if env.timeoutDuringLaunch then
    { browserLaunched := env.launchOk, browserClosed := false, status := 408 }
  else if !env.launchOk then
    { browserLaunched := false, browserClosed := false, status := 500 }
  else if env.timeoutBeforeDone then
    { browserLaunched := true, browserClosed := true, status := 408 }
  else if !env.newPageOk then
    { browserLaunched := true, browserClosed := true, status := 500 }
  else if !env.gotoOk then
    { browserLaunched := true, browserClosed := true, status := 500 }
  else if !env.exportOk then
    { browserLaunched := true, browserClosed := true, status := 500 }
  else
    { browserLaunched := true, browserClosed := true, status := 200 }

/-! ### The readiness waiter, exception behaviour (src/server.js lines 241-338)

`waitForContentLoad` runs its phases inside one `try` whose `catch` only logs.
The ApexCharts detection additionally carries its own `.catch`.  The
fallible awaited steps are the four `page.evaluate` /`page.evaluateHandle`
round trips; the two bare timers cannot reject. -/

/-- Which in-page script evaluations of one `waitForContentLoad` run fail. -/
structure ReadyEnv where
  /-- the `page.evaluate` inside `waitForImagesLoad` rejects -/
  imagesEvalFails : Bool
  /-- `page.evaluateHandle(() => document.fonts.ready)` rejects first -/
  fontsEvalFails : Bool
  /-- `page.waitForFunction` for `window.ApexCharts` rejects (timeout or error) -/
  apexWaitFails : Bool
  /-- the chart-initialization `page.evaluate` rejects -/
  chartInitEvalFails : Bool
  /-- the final-verification `page.evaluate` rejects -/
  finalEvalFails : Bool
  deriving DecidableEq, Repr

/-- The body of `waitForContentLoad` without its outer `catch`: the phases in
source order, an uncaught rejection aborting the rest.  The ApexCharts wait
carries its own `.catch(() => console.log(...))`, so its failure is swallowed
on the spot and is not a throw of the body. -/
def waitForContentLoadBody (env : ReadyEnv) : Except (List Char) Unit := do
  if env.imagesEvalFails then throw ("images evaluate failed".toList) else pure ()
  if env.fontsEvalFails then throw ("fonts evaluate failed".toList) else pure ()
  if env.apexWaitFails then pure () else pure ()
  if env.chartInitEvalFails then throw ("chart init evaluate failed".toList) else pure ()
  if env.finalEvalFails then throw ("final evaluate failed".toList) else pure ()

/-- `waitForContentLoad` (src/server.js lines 241-338): the body wrapped in
the outer `try { ... } catch (error) { console.log(...) }`. -/
def waitForContentLoad (env : ReadyEnv) : Except (List Char) Unit :=
  match waitForContentLoadBody env with
  | .ok u => .ok u
  | .error _ => .ok ()

/-! ### The readiness waiter, timing (src/server.js lines 241-338 and 451-454)

Each waiting phase resolves at the earlier of its real condition and its
timer; the in-page script round trips themselves take no modelled time.  The
caller additionally races the whole of `waitForContentLoad` against a
25-second timer (lines 451-454). -/

/-- When the real conditions of a page become true, in milliseconds from the
start of the wait; `none` means never (e.g. an image whose load/error event
never fires). -/
structure ReadyTiming where
  imagesSettle : Option Nat
  fontsReady : Option Nat
  apexAppears : Option Nat
  deriving DecidableEq, Repr

/-- Elapsed time of racing a real condition against a timer of `bound`
milliseconds: whichever finishes first. -/
def raceTime : Option Nat → Nat → Nat
  | some t, bound => min t bound
  | none, bound => bound

/-- Elapsed time of `waitForImagesLoad`: the in-page promise resolves when
all images have settled or when the 15-second safety timer fires. -/
def waitForImagesLoadTime (tm : ReadyTiming) : Nat :=
  raceTime tm.imagesSettle 15000

/-- Elapsed time of one `waitForContentLoad` run: the fixed 2-second initial
pause, the image settle race, the 5-second font race, the 10-second
ApexCharts detection bound, and the fixed 5-second chart settle delay. -/
def waitForContentLoadTime (tm : ReadyTiming) : Nat :=
  2000 + waitForImagesLoadTime tm + raceTime tm.fontsReady 5000
    + raceTime tm.apexAppears 10000 + 5000

/-- Elapsed time of the readiness wait as performed by the handler, which
races `waitForContentLoad` against a 25-second timer (lines 451-454). -/
def readinessWaitTime (tm : ReadyTiming) : Nat :=
  min (waitForContentLoadTime tm) 25000

/-! ### Generated artifact names (src/server.js line 371)

`crypto.randomBytes(20).toString('hex')` followed by `.pdf`: each byte
becomes two lowercase hexadecimal digits. -/

/-- The lowercase hexadecimal digit of a value below 16. -/
def hexDigit (n : Nat) : Char :=
  if n < 10 then Char.ofNat ('0'.toNat + n) else Char.ofNat ('a'.toNat + (n - 10))

/-- The two hexadecimal digits of one byte (bytes are below 256, so the
leading `% 16` is the identity on them). -/
def byteToHex (b : Nat) : List Char :=
  [hexDigit (b / 16 % 16), hexDigit (b % 16)]

/-- `buffer.toString('hex')` over a byte list. -/
def bytesToHex : List Nat → List Char
  | [] => []
  | b :: bs => byteToHex b ++ bytesToHex bs

/-- The filename built at src/server.js line 371 from the 20 random bytes. -/
def generatedFilename (bytes : List Nat) : List Char :=
  bytesToHex bytes ++ pdfSuffix

/-! ### Creation under a caller-supplied name hint -/

/-- Strip every character outside the allow-list from a caller-supplied name
hint. -/
def sanitizeHint (hint : List Char) : List Char :=
  hint.filter fun c => allowedChar c

/-- Modelled from the spec: the `create(nameHint, bytes)` operation of the
PdfFileStore for a caller-supplied name hint - "sanitize it (strip characters
outside an allow-list, force a `.pdf` suffix) and use it as the filename,
deleting any pre-existing file of that name first".  The repository's README
documents the optional custom `filename` request field, but no request
handler under src implements it; every handler takes only the random-hex
branch (src/server.js line 371), so this definition follows the spec's words.
Returns the directory after the write together with the chosen filename. -/
def createArtifact (dir : List StoredFile) (hint : List Char) (bytes : List Nat)
    (now : Nat) : List StoredFile × List Char :=
  let name := sanitizeHint hint ++ pdfSuffix
  ((dir.filter fun f => !decide (f.name = name)) ++ [⟨name, now, bytes⟩], name)

/-- The files of a directory snapshot that occupy a given filename. -/
def occupants (dir : List StoredFile) (name : List Char) : List StoredFile :=
  dir.filter fun f => decide (f.name = name)

/-! ### Lemmas about the validation predicate -/

theorem allowedChar_dot : allowedChar '.' = false := by decide

theorem ne_head_of_allowedChar {c d : Char} (hc : allowedChar c = true)
    (hd : allowedChar d = false) : decide (d = c) = false := by
  rcases Decidable.em (d = c) with h | h
  · subst h; rw [hc] at hd; cases hd
  · simp [h]

theorem containsSeq_allowed_append (p : Char) (ps stem suffix : List Char)
    (hstem : ∀ c ∈ stem, allowedChar c = true) (hp : allowedChar p = false)
    (hsuffix : containsSeq (p :: ps) suffix = false) :
    containsSeq (p :: ps) (stem ++ suffix) = false := by
  induction stem with
  | nil => simpa using hsuffix
  | cons c s ih =>
    have hc : allowedChar c = true := hstem c (by simp)
    have hne : decide (p = c) = false := ne_head_of_allowedChar hc hp
    have htail : containsSeq (p :: ps) (s ++ suffix) = false :=
      ih fun d hd => hstem d (by simp [hd])
    simp [containsSeq, startsWithSeq, hne, htail]

theorem stemThenPdf_allowed_append (stem : List Char)
    (hstem : ∀ c ∈ stem, allowedChar c = true) :
    stemThenPdf (stem ++ pdfSuffix) = true := by
  induction stem with
  | nil => decide
  | cons c s ih =>
    have hc : allowedChar c = true := hstem c (by simp)
    have htail := ih fun d hd => hstem d (by simp [hd])
    simp [stemThenPdf, hc, htail]

theorem matchesPdfRegex_allowed_append (stem : List Char) (h0 : stem ≠ [])
    (hstem : ∀ c ∈ stem, allowedChar c = true) :
    matchesPdfRegex (stem ++ pdfSuffix) = true := by
  cases stem with
  | nil => cases h0 rfl
  | cons c s =>
    have hc : allowedChar c = true := hstem c (by simp)
    have := stemThenPdf_allowed_append (c :: s) hstem
    simp only [List.cons_append, matchesPdfRegex, hc, Bool.true_and]
    simpa using this

theorem invalidFilename_allowed_append (stem : List Char) (h0 : stem ≠ [])
    (hstem : ∀ c ∈ stem, allowedChar c = true) :
    invalidFilename (stem ++ pdfSuffix) = false := by
  have hdots : containsSeq ['.', '.'] (stem ++ pdfSuffix) = false :=
    containsSeq_allowed_append '.' ['.'] stem pdfSuffix hstem (by decide) (by decide)
  have hslash : containsSeq ['/'] (stem ++ pdfSuffix) = false :=
    containsSeq_allowed_append '/' [] stem pdfSuffix hstem (by decide) (by decide)
  have hback : containsSeq ['\\'] (stem ++ pdfSuffix) = false :=
    containsSeq_allowed_append '\\' [] stem pdfSuffix hstem (by decide) (by decide)
  have hregex := matchesPdfRegex_allowed_append stem h0 hstem
  have hne : (stem ++ pdfSuffix).isEmpty = false := by
    cases stem with
    | nil => cases h0 rfl
    | cons c s => simp
  simp [invalidFilename, hdots, hslash, hback, hregex, hne]

/-! ### C2: rejection happens before any filesystem access -/

/-- C2: for every filename containing `..`, `/` or `\`, and for every
filename not matching `^[a-zA-Z0-9_-]+\.pdf$`, both serving routes answer
400 Invalid filename and perform no filesystem operation at all. -/
theorem invalid_name_rejected_before_fs (dir : List StoredFile) (name : List Char)
    (h : containsSeq ['.', '.'] name = true ∨ containsSeq ['/'] name = true
      ∨ containsSeq ['\\'] name = true ∨ matchesPdfRegex name = false) :
    downloadRoute dir name = (.invalidName, []) ∧ viewRoute dir name = (.invalidName, []) := by
  have hinv : invalidFilename name = true := by
    rcases h with h | h | h | h <;> simp [invalidFilename, h]
  exact ⟨by simp [downloadRoute, hinv], by simp [viewRoute, hinv]⟩

/-- C2 witness: `GET /download/evil..pdf` is rejected with no filesystem
access (the spec's own scenario). -/
theorem invalid_name_rejected_before_fs_witness :
    downloadRoute [] ("evil..pdf".toList) = (.invalidName, [])
      ∧ viewRoute [] ("evil..pdf".toList) = (.invalidName, []) :=
  invalid_name_rejected_before_fs [] ("evil..pdf".toList) (Or.inl (by decide))

/-! ### C1: what the serving routes actually check -/

/-- C1 (amended): for every filename that passes validation, `GET /download`
and `GET /view` return the stored bytes iff a file of that exact name exists
in the directory snapshot, and 404 otherwise; the current time and the file's
expiry play no part in the decision. -/
theorem serve_iff_exists (dir : List StoredFile) (name : List Char)
    (h : invalidFilename name = false) :
    (downloadRoute dir name).1 = specServe dir name
      ∧ (viewRoute dir name).1 = specServe dir name := by
  constructor <;>
    · simp only [downloadRoute, viewRoute, specServe, h, Bool.false_eq_true, if_false]
      cases findFile dir name <;> simp

/-- C1 witness: a stored `abc.pdf` is served by both routes, and a missing
name yields 404, matching the amended contract. -/
theorem serve_iff_exists_witness :
    (downloadRoute [⟨"abc.pdf".toList, 0, [37]⟩] ("abc.pdf".toList)).1
        = specServe [⟨"abc.pdf".toList, 0, [37]⟩] ("abc.pdf".toList)
      ∧ (viewRoute [⟨"abc.pdf".toList, 0, [37]⟩] ("abc.pdf".toList)).1
        = specServe [⟨"abc.pdf".toList, 0, [37]⟩] ("abc.pdf".toList) :=
  serve_iff_exists [⟨"abc.pdf".toList, 0, [37]⟩] ("abc.pdf".toList) (by decide)

/-- C1 counterexample: a file written at time 0 with TTL 3600000 ms is past
its expiry at time 3600001 ms, yet `GET /download` still returns its bytes
instead of the 404 the claim requires. -/
theorem download_serves_expired_file :
    expiredNow 3600001 3600000 ⟨"abc.pdf".toList, 0, [37]⟩ = true
      ∧ (downloadRoute [⟨"abc.pdf".toList, 0, [37]⟩] ("abc.pdf".toList)).1
          = ServeResponse.fileBytes [37]
      ∧ (downloadRoute [⟨"abc.pdf".toList, 0, [37]⟩] ("abc.pdf".toList)).1
          ≠ ServeResponse.notFound := by
  refine ⟨by decide, by decide, by decide⟩

/-! ### C10: generated names always pass validation -/

theorem hexDigit_allowed : ∀ n : Nat, n < 16 → allowedChar (hexDigit n) = true := by
  decide

theorem byteToHex_allowed (b : Nat) : ∀ c ∈ byteToHex b, allowedChar c = true := by
  intro c hc
  have h1 : b / 16 % 16 < 16 := Nat.mod_lt _ (by norm_num)
  have h2 : b % 16 < 16 := Nat.mod_lt _ (by norm_num)
  simp only [byteToHex, List.mem_cons, List.not_mem_nil, or_false] at hc
  rcases hc with rfl | rfl
  · exact hexDigit_allowed _ h1
  · exact hexDigit_allowed _ h2

theorem bytesToHex_allowed (bytes : List Nat) :
    ∀ c ∈ bytesToHex bytes, allowedChar c = true := by
  induction bytes with
  | nil => intro c hc; cases hc
  | cons b bs ih =>
    intro c hc
    rcases List.mem_append.mp hc with hc | hc
    · exact byteToHex_allowed b c hc
    · exact ih c hc

theorem bytesToHex_ne_nil (bytes : List Nat) (h : bytes ≠ []) :
    bytesToHex bytes ≠ [] := by
  cases bytes with
  | nil => cases h rfl
  | cons b bs => simp [bytesToHex, byteToHex]

/-- C10: the filename the render handler builds from the 20 random bytes (40
lowercase hexadecimal digits followed by `.pdf`) always passes the serving
routes' validation, so a freshly returned download/view URL is never answered
with 400 Invalid filename. -/
theorem generated_filename_valid (bytes : List Nat) (h : bytes.length = 20) :
    invalidFilename (generatedFilename bytes) = false
      ∧ ∀ dir : List StoredFile,
          (downloadRoute dir (generatedFilename bytes)).1 ≠ ServeResponse.invalidName
            ∧ (viewRoute dir (generatedFilename bytes)).1 ≠ ServeResponse.invalidName := by
  have hne : bytes ≠ [] := by
    intro hnil; rw [hnil] at h; cases h
  have hvalid : invalidFilename (generatedFilename bytes) = false :=
    invalidFilename_allowed_append (bytesToHex bytes) (bytesToHex_ne_nil bytes hne)
      (bytesToHex_allowed bytes)
  refine ⟨hvalid, fun dir => ⟨?_, ?_⟩⟩ <;>
    · simp only [downloadRoute, viewRoute, hvalid, Bool.false_eq_true, if_false]
      cases findFile dir (generatedFilename bytes) <;> simp

/-- C10 witness: twenty zero bytes give the name of forty `0` digits plus
`.pdf`, which both routes accept past validation. -/
theorem generated_filename_valid_witness :
    invalidFilename (generatedFilename [0, 0, 0, 0, 0, 0, 0, 0, 0, 0,
        0, 0, 0, 0, 0, 0, 0, 0, 0, 0]) = false
      ∧ ∀ dir : List StoredFile,
          (downloadRoute dir (generatedFilename [0, 0, 0, 0, 0, 0, 0, 0, 0, 0,
              0, 0, 0, 0, 0, 0, 0, 0, 0, 0])).1 ≠ ServeResponse.invalidName
            ∧ (viewRoute dir (generatedFilename [0, 0, 0, 0, 0, 0, 0, 0, 0, 0,
                0, 0, 0, 0, 0, 0, 0, 0, 0, 0])).1 ≠ ServeResponse.invalidName :=
  generated_filename_valid [0, 0, 0, 0, 0, 0, 0, 0, 0, 0,
    0, 0, 0, 0, 0, 0, 0, 0, 0, 0] (by decide)

/-! ### C3: browser lifetime across the handler's exit paths -/

/-- C3 failing input evaluated: when the 60-second generation timeout rejects
the `Promise.race` while `puppeteer.launch` is still pending (the launch
budget is the separate 120-second `PUPPETEER_TIMEOUT`) and the launch then
succeeds, the `catch`/`finally` of the handler have already run with
`browser === null`: a browser is launched and no exit path ever closes it,
contradicting the claim that no exit path leaves the browser open. -/
theorem generatePdf_timeout_leaks_browser :
    (generatePdfHandler ⟨true, true, false, true, true, true⟩).browserLaunched = true
      ∧ (generatePdfHandler ⟨true, true, false, true, true, true⟩).browserClosed = false
      ∧ (generatePdfHandler ⟨true, true, false, true, true, true⟩).status = 408 := by
  refine ⟨rfl, rfl, rfl⟩

/-- On every exit path on which the launch completed before the handler
returned - success, any thrown step, or a timeout that fires after the launch
resolved - the `finally` block does close the browser. -/
theorem generatePdf_closes_when_launch_completes (env : RenderEnv)
    (h : env.timeoutDuringLaunch = false) :
    (generatePdfHandler env).browserLaunched = true
      → (generatePdfHandler env).browserClosed = true := by
  obtain ⟨tdl, lk, tbd, np, gt, ex⟩ := env
  subst h
  cases lk <;> cases tbd <;> cases np <;> cases gt <;> cases ex <;> decide

/-- Witness for the previous theorem at the all-success execution. -/
theorem generatePdf_closes_when_launch_completes_witness :
    (generatePdfHandler ⟨false, true, false, true, true, true⟩).browserLaunched = true
      → (generatePdfHandler ⟨false, true, false, true, true, true⟩).browserClosed = true :=
  generatePdf_closes_when_launch_completes ⟨false, true, false, true, true, true⟩ rfl

/-! ### C4: the readiness waiter never throws -/

/-- C4: whatever combination of in-page evaluation failures a page produces,
`waitForContentLoad` returns normally - the outer catch (and the local catch
of the ApexCharts wait) turn every internal error into "continue anyway". -/
theorem waitForContentLoad_never_throws (env : ReadyEnv) :
    waitForContentLoad env = Except.ok () := by
  cases hb : waitForContentLoadBody env with
  | ok u => cases u; simp [waitForContentLoad, hb]
  | error e => simp [waitForContentLoad, hb]

/-! ### C5: the readiness wait is bounded -/

theorem raceTime_le (o : Option Nat) (bound : Nat) : raceTime o bound ≤ bound := by
  cases o with
  | none => exact Nat.le_refl bound
  | some t => exact Nat.min_le_right t bound

/-- C5: for every page - including one with an image whose load/error event
never fires - the readiness wait takes at most the sum of the phase timeouts
plus the fixed settle delay, and the handler's outer race caps it further at
25 seconds. -/
theorem readiness_wait_bounded (tm : ReadyTiming) :
    waitForContentLoadTime tm ≤ 2000 + 15000 + 5000 + 10000 + 5000
      ∧ readinessWaitTime tm ≤ 25000 := by
  constructor
  · have h1 := raceTime_le tm.imagesSettle 15000
    have h2 := raceTime_le tm.fontsReady 5000
    have h3 := raceTime_le tm.apexAppears 10000
    unfold waitForContentLoadTime waitForImagesLoadTime
    omega
  · exact Nat.min_le_right _ _

/-! ### C6: the sweep deletes exactly the expired files -/

/-- C6: in a run whose directory read succeeded, a listed file survives the
sweep iff it is not yet older than the TTL, or its own stat failed, or its
own unlink failed - so with no faults the sweep deletes exactly the expired
files, and a per-file fault affects no other file. -/
theorem cleanup_deletes_exactly_expired (e : SweepFaults) (now ttl : Nat)
    (dir : List StoredFile) (f : StoredFile)
    (hread : e.readdirFails = false) (hf : f ∈ dir) :
    f ∈ cleanupOldFiles e now ttl dir ↔
      (expiredNow now ttl f = false ∨ e.statFails f.name = true
        ∨ e.unlinkFails f.name = true) := by
  unfold cleanupOldFiles
  rw [hread]
  simp only [Bool.false_eq_true, if_false, List.mem_filter, hf, true_and]
  cases hstat : e.statFails f.name <;> cases hexp : expiredNow now ttl f
    <;> cases hun : e.unlinkFails f.name <;> simp [sweepDeletes, hstat, hexp, hun]

/-- C6 witness: with no faults, a file one millisecond past the one-hour TTL
is gone after the sweep (the spec's T+3601s scenario). -/
theorem cleanup_deletes_exactly_expired_witness :
    (⟨"abc.pdf".toList, 0, []⟩ : StoredFile) ∈
        cleanupOldFiles noFaults 3600001 3600000 [⟨"abc.pdf".toList, 0, []⟩]
      ↔ (expiredNow 3600001 3600000 ⟨"abc.pdf".toList, 0, []⟩ = false
          ∨ noFaults.statFails ("abc.pdf".toList) = true
          ∨ noFaults.unlinkFails ("abc.pdf".toList) = true) :=
  cleanup_deletes_exactly_expired noFaults 3600001 3600000
    [⟨"abc.pdf".toList, 0, []⟩] ⟨"abc.pdf".toList, 0, []⟩ rfl (by simp)

/-! ### C7: the sweep is idempotent -/

theorem filter_apply_twice {α : Type} (p : α → Bool) (l : List α) :
    (l.filter p).filter p = l.filter p := by
  induction l with
  | nil => rfl
  | cons a t ih =>
    cases hp : p a
    · simp [List.filter_cons, hp, ih]
    · simp [List.filter_cons, hp, ih]

/-- C7: running the sweep twice in succession over the same snapshot, with
no file created in between (and the same fault behaviour), performs no
deletion in the second run: the second run is a no-op on the directory. -/
theorem cleanup_idempotent (e : SweepFaults) (now ttl : Nat) (dir : List StoredFile) :
    cleanupOldFiles e now ttl (cleanupOldFiles e now ttl dir)
      = cleanupOldFiles e now ttl dir := by
  cases hr : e.readdirFails <;>
    simp [cleanupOldFiles, hr, filter_apply_twice]

/-! ### C8: creation under a name hint replaces atomically -/

/-- C8: creating an artifact from a caller-supplied name hint sanitizes the
hint to the allow-list with a forced `.pdf` suffix and deletes any
pre-existing file of that name before writing, so afterwards exactly one file
of that name exists - the new one, with the new content and timestamp - and
the at-most-one-file-per-name invariant is preserved. -/
theorem createArtifact_replaces (dir : List StoredFile) (hint : List Char)
    (bytes : List Nat) (now : Nat)
    (hinv : (dir.map StoredFile.name).Nodup) :
    occupants (createArtifact dir hint bytes now).1 (createArtifact dir hint bytes now).2
        = [⟨(createArtifact dir hint bytes now).2, now, bytes⟩]
      ∧ ((createArtifact dir hint bytes now).1.map StoredFile.name).Nodup := by
  unfold createArtifact occupants
  simp only []
  constructor
  · rw [List.filter_append]
    have hleft : (dir.filter fun f => !decide (f.name = sanitizeHint hint ++ pdfSuffix)).filter
        (fun f => decide (f.name = sanitizeHint hint ++ pdfSuffix)) = [] := by
      rw [List.filter_eq_nil_iff]
      intro f hfmem
      have := (List.mem_filter.mp hfmem).2
      simp only [Bool.not_eq_true', decide_eq_false_iff_not] at this
      simp [this]
    rw [hleft]
    simp
  · rw [List.map_append]
    have hsub : ((dir.filter fun f => !decide (f.name = sanitizeHint hint ++ pdfSuffix)).map
        StoredFile.name).Sublist (dir.map StoredFile.name) :=
      (List.filter_sublist dir).map StoredFile.name
    have hnodup : ((dir.filter fun f => !decide (f.name = sanitizeHint hint ++ pdfSuffix)).map
        StoredFile.name).Nodup := hinv.sublist hsub
    have hnotmem : (sanitizeHint hint ++ pdfSuffix) ∉
        ((dir.filter fun f => !decide (f.name = sanitizeHint hint ++ pdfSuffix)).map
          StoredFile.name) := by
      intro hmem
      rcases List.mem_map.mp hmem with ⟨f, hfmem, hfname⟩
      have := (List.mem_filter.mp hfmem).2
      rw [hfname] at this
      simp at this
    rw [List.nodup_append_comm]
    simpa [List.nodup_cons] using And.intro hnotmem hnodup

/-- C8 witness: creating `my-report` over an existing `my-report.pdf` leaves
exactly the one new file of that name. -/
theorem createArtifact_replaces_witness :
    occupants (createArtifact [⟨"my-report.pdf".toList, 5, [1]⟩]
          ("my-report".toList) [2] 99).1
        (createArtifact [⟨"my-report.pdf".toList, 5, [1]⟩] ("my-report".toList) [2] 99).2
        = [⟨(createArtifact [⟨"my-report.pdf".toList, 5, [1]⟩]
            ("my-report".toList) [2] 99).2, 99, [2]⟩]
      ∧ ((createArtifact [⟨"my-report.pdf".toList, 5, [1]⟩]
          ("my-report".toList) [2] 99).1.map StoredFile.name).Nodup :=
  createArtifact_replaces [⟨"my-report.pdf".toList, 5, [1]⟩]
    ("my-report".toList) [2] 99 (by decide)

/-! ### C9: the file listing route -/

/-- C9 failing behaviour evaluated: every `GET /files` request that passes
authentication receives the 500 `Failed to list files` response - even when
the directory listing succeeds - because building the success response reads
`FILE_EXPIRATION_HOURS`, an identifier bound nowhere in src/server.js, and
the resulting `ReferenceError` lands in the catch. -/
theorem filesRoute_always_fails :
    (∀ (listingResult : Option (List StoredFile)) (ttl now : Nat),
        filesRoute listingResult ttl now = FilesResponse.failure)
      ∧ filesRoute (some []) 3600000 0 = FilesResponse.failure := by
  refine ⟨fun r ttl now => ?_, rfl⟩
  cases r <;> rfl

end PdfApi
